/-
  Verification of the mood-lighting controller (ESP32 button → LIFX cloud API).

  Shallow embedding of the Python sources:
    * `src/src/lighting/lifx_api.py` — `LIFXController` (`__init__`,
      `_make_request`, `get_light_state`, `set_light_state`, `toggle_light`);
    * `src/src/main.py` — `LightController.button_pressed` debounce gate and
      its `__init__` initialisation of `last_button_time`.

  The external HTTP service is modelled as an environment (`Env`) mapping
  requests to outcomes; the operations additionally return the list of
  network requests they issued, so that "no write is attempted" claims are
  expressible.  Machine ticks are modelled as unbounded integers (the tests
  of the repository also treat `time.ticks_diff` abstractly); hardware tick
  wraparound is not modelled.
-/
import Mathlib

namespace MoodLighting

/-! ## Data model of the LIFX API (from `lifx_api.py` and `main.py`) -/

/-- `LIFXAPIError` — the single exception class of `lifx_api.py`; carries
the message it was raised with. -/
structure LIFXAPIError where
  msg : String
deriving DecidableEq, Repr

/-- One device-state object of the list returned by
`GET /v1/lights/{selector}`.  The modelled operations (`get_light_state`,
`toggle_light`) read only its `power` field (`lights[0]['power']`); the
remaining JSON fields are not represented. -/
structure Light where
  power : String
deriving DecidableEq, Repr

/-- One entry of the `results` list of a `PUT .../state` response; `status`
is `r.get('status')`, absent key modelled as `none`. -/
structure DeviceResult where
  status : Option String
deriving DecidableEq, Repr

/-- Response of `PUT /v1/lights/{selector}/state`; `results = none` models a
response dict without a `'results'` key (`'results' in result`). -/
structure PutResponse where
  results : Option (List DeviceResult)
deriving DecidableEq, Repr

/-- The state-change payload built by `set_light_state`: each field is put
into the request body exactly when the corresponding argument is not `None`. -/
structure StatePayload where
  power : Option String
  brightness : Option Rat
  color : Option String
deriving DecidableEq, Repr

/-- `not state` on the payload dict: true iff no state change was specified. -/
def StatePayload.isEmpty (s : StatePayload) : Bool :=
  s.power.isNone && s.brightness.isNone && s.color.isNone

/-- A network request issued through `_make_request`: the HTTP verb with its
endpoint (and body for PUT). -/
inductive Request where
  | get (endpoint : String)
  | put (endpoint : String) (body : StatePayload)
deriving DecidableEq, Repr

/-- The external cloud service, as seen through `_make_request`: the outcome
of a `GET lights/{selector}` request and of a `PUT lights/{selector}/state`
request.  `_make_request` already converts transport and HTTP-status
failures into `LIFXAPIError`, so outcomes are `Except LIFXAPIError _`. -/
structure Env where
  get : String → Except LIFXAPIError (List Light)
  put : String → StatePayload → Except LIFXAPIError PutResponse

/-! ## `LIFXController.get_light_state` / `set_light_state` / `toggle_light`

Each operation returns its result together with the list of network requests
it issued, in order. -/

/-- `LIFXController.get_light_state`: issue the GET, then raise
`"No lights found for selector: ..."` when the returned list is falsy
(empty). -/
def get_light_state (env : Env) (light_selector : String) :
    Except LIFXAPIError (List Light) × List Request :=
  let endpoint := "lights/" ++ light_selector
  let reqs := [Request.get endpoint]
  match env.get endpoint with
  | .error e => (.error e, reqs)
  | .ok lights =>
      if lights.isEmpty then
        (.error ⟨"No lights found for selector: " ++ light_selector⟩, reqs)
      else
        (.ok lights, reqs)

/-- `LIFXController.set_light_state`: build the state payload from the
non-`None` arguments; raise `"No state changes specified"` before any
request when it is empty; otherwise issue the PUT and, when the response
carries a `results` list, raise `"No lights were successfully updated"`
when no entry has `status == 'ok'`. -/
def set_light_state (env : Env) (light_selector : String)
    (power : Option String) (brightness : Option Rat) (color : Option String) :
    Except LIFXAPIError PutResponse × List Request :=
  let state : StatePayload := ⟨power, brightness, color⟩
  if state.isEmpty then
    (.error ⟨"No state changes specified"⟩, [])
  else
    let endpoint := "lights/" ++ light_selector ++ "/state"
    let reqs := [Request.put endpoint state]
    match env.put endpoint state with
    | .error e => (.error e, reqs)
    | .ok result =>
        match result.results with
        | none => (.ok result, reqs)
        | some rs =>
            let success_count := (rs.filter (fun r => r.status == some "ok")).length
            if success_count == 0 then
              (.error ⟨"No lights were successfully updated"⟩, reqs)
            else
              (.ok result, reqs)

/-- `new_power = 'off' if current_power == 'on' else 'on'` (step 2 of
`toggle_light`). -/
def new_power_of (current_power : String) : String :=
  if current_power == "on" then "off" else "on"

/-- The dict returned by a successful `toggle_light`. -/
structure ToggleResult where
  old_power : String
  new_power : String
  api_response : PutResponse
  success : Bool
deriving DecidableEq, Repr

/-- `LIFXController.toggle_light`: query the state, take `lights[0]['power']`
as authoritative, compute the opposite power, write it, and return the
result record.  The (unreachable) empty-list case of `lights[0]` is the
`IndexError` converted by the outer `except Exception`. -/
def toggle_light (env : Env) (light_selector : String) :
    Except LIFXAPIError ToggleResult × List Request :=
  let (res1, reqs1) := get_light_state env light_selector
  match res1 with
  | .error e => (.error e, reqs1)
  | .ok lights =>
      match lights with
      | [] => (.error ⟨"Toggle failed: list index out of range"⟩, reqs1)
      | l :: _ =>
          let current_power := l.power
          let new_power := new_power_of current_power
          let (res3, reqs3) := set_light_state env light_selector (some new_power) none none
          match res3 with
          | .error e => (.error e, reqs1 ++ reqs3)
          | .ok result =>
              (.ok ⟨current_power, new_power, result, true⟩, reqs1 ++ reqs3)

/-! ## `LIFXController.__init__` (token validation) -/

/-- The constructed controller: the fields of `LIFXController.__init__`
that the modelled behaviour depends on (`base_url` is the constant
`"https://api.lifx.com/v1"`). -/
structure LIFXController where
  api_token : String
  timeout : Rat
deriving DecidableEq, Repr

/-- `self.api_token = api_token or LIFX_TOKEN`: Python `or` falls back to
the secrets token when the argument is `None` or falsy (the empty string). -/
def effective_api_token (api_token : Option String) (secrets_token : String) : String :=
  match api_token with
  | some t => if t = "" then secrets_token else t
  | none => secrets_token

/-- `LIFXController.__init__`: store the effective token and the timeout
converted to seconds, and raise `"Invalid LIFX API token format"` when the
effective token is falsy or its length is not 64. -/
def lifx_controller_init (api_token : Option String) (secrets_token : String)
    (timeout : Rat) : Except LIFXAPIError LIFXController :=
  let tok := effective_api_token api_token secrets_token
  let t := timeout / 1000
  if tok = "" ∨ tok.length ≠ 64 then
    .error ⟨"Invalid LIFX API token format"⟩
  else
    .ok ⟨tok, t⟩

/-! ## `LIFXController._make_request` (resource handling)

The HTTP library call is abstracted by its outcome; the run records whether
a response handle was created (`opened`) and whether `close()` was called
on it (`closed`). -/

/-- The exceptions that can escape `_make_request`: the `LIFXAPIError` the
code raises, or the `UnboundLocalError` produced when the `except` block
evaluates `hasattr(response, 'close')` while `response` was never bound. -/
inductive PyException where
  | lifxApiError (msg : String)
  | unboundLocalError
deriving DecidableEq, Repr

/-- Outcome of the underlying HTTP library call (`requests.get` /
`requests.put`): either the call itself raised before a response object
existed, or it returned a response with a status code, a text body, and a
`.json()` outcome (`.error` models `response.json()` raising). -/
inductive HttpOutcome (α : Type) where
  | raised (msg : String)
  | responded (status_code : Nat) (text : String) (jsonResult : Except String α)

/-- One run of `_make_request`: its result together with the response-handle
accounting. -/
structure RequestRun (α : Type) where
  result : Except PyException α
  opened : Bool
  closed : Bool

/-- `LIFXController._make_request`, follow the control flow of the
`try`/`except` block:
* unsupported method, or the HTTP call raising: `response` is never bound,
  so the `except` block's `hasattr(response, 'close')` raises
  `UnboundLocalError` — no handle was created;
* non-{200, 207} status: raise `HTTP {status}: {text}`, the `except` block
  closes the response and re-raises the `LIFXAPIError`;
* `.json()` raising: the `except` block closes the response and wraps the
  error as `Request failed: ...`;
* success: `response.close()` then return the parsed result. -/
def make_request {α : Type} (method : String) (outcome : HttpOutcome α) :
    RequestRun α :=
  if method = "GET" ∨ method = "PUT" then
    match outcome with
    | .raised _msg => ⟨.error .unboundLocalError, false, false⟩
    | .responded status_code text jsonResult =>
        if status_code = 200 ∨ status_code = 207 then
          match jsonResult with
          | .ok result => ⟨.ok result, true, true⟩
          | .error e => ⟨.error (.lifxApiError ("Request failed: " ++ e)), true, true⟩
        else
          ⟨.error (.lifxApiError ("HTTP " ++ toString status_code ++ ": " ++ text)),
            true, true⟩
  else
    ⟨.error .unboundLocalError, false, false⟩

/-! ## `LightController` debounce gate (from `main.py`) -/

/-- `DEBOUNCE_TIME = 50` (ms). -/
def DEBOUNCE_TIME : Int := 50

/-- `time.ticks_diff(a, b)`, modelled on unbounded integer ticks. -/
def ticks_diff (a b : Int) : Int := a - b

/-- `LightController.__init__`: `self.last_button_time = 0`. -/
def initial_last_button_time : Int := 0

/-- The debounce gate of `LightController.button_pressed`: given the trigger
time and the stored `last_button_time`, return whether the press is
processed further and the new value of `last_button_time`
(`if ticks_diff(current_time, self.last_button_time) < DEBOUNCE_TIME:
return` / `self.last_button_time = current_time`). -/
def button_pressed_gate (current_time last_button_time : Int) : Bool × Int :=
  if ticks_diff current_time last_button_time < DEBOUNCE_TIME then
    (false, last_button_time)
  else
    (true, current_time)

/-! ## Concrete service environments used to instantiate the theorems -/

/-- A service whose bulk write reports one `"ok"` and one `"failed"` device. -/
def envBulkOkFailed : Env where
  get _ := .ok [⟨"on"⟩]
  put _ _ := .ok ⟨some [⟨some "ok"⟩, ⟨some "failed"⟩]⟩

/-- A service whose bulk write reports a single `"failed"` device. -/
def envBulkAllFailed : Env where
  get _ := .ok [⟨"on"⟩]
  put _ _ := .ok ⟨some [⟨some "failed"⟩]⟩

/-- A service whose state query reports the third power value `"unknown"`
and whose writes succeed. -/
def envUnknownPower : Env where
  get _ := .ok [⟨"unknown"⟩]
  put _ _ := .ok ⟨some [⟨some "ok"⟩]⟩

/-- A service whose state query always fails with a network error. -/
def envQueryFails : Env where
  get _ := .error ⟨"Request failed: timeout"⟩
  put _ _ := .ok ⟨some [⟨some "ok"⟩]⟩

/-- The service as seen by one toggle when the light's power is `w` and
there is no external interference: the query reports `w`, and writes
succeed on one device.  The power after the toggle is the power the toggle
wrote. -/
def serviceEnv (w : String) : Env where
  get _ := .ok [⟨w⟩]
  put _ _ := .ok ⟨some [⟨some "ok"⟩]⟩

/-! ## Helper lemmas -/

/-- `get_light_state` issues exactly its one GET request. -/
theorem get_light_state_reqs (env : Env) (sel : String) :
    (get_light_state env sel).2 = [Request.get ("lights/" ++ sel)] := by
  simp only [get_light_state]
  split
  · rfl
  · split <;> rfl

/-- When the service returns a non-empty list, `get_light_state` returns it. -/
theorem get_light_state_ok (env : Env) (sel : String) (l : Light) (ls : List Light)
    (hq : env.get ("lights/" ++ sel) = .ok (l :: ls)) :
    get_light_state env sel = (.ok (l :: ls), [Request.get ("lights/" ++ sel)]) := by
  simp [get_light_state, hq]

/-- With a power argument, `set_light_state` issues exactly its one PUT
request. -/
theorem set_light_state_reqs (env : Env) (sel pw : String) :
    (set_light_state env sel (some pw) none none).2 =
      [Request.put ("lights/" ++ sel ++ "/state") ⟨some pw, none, none⟩] := by
  simp only [set_light_state]
  split
  · next hemp => simp [StatePayload.isEmpty] at hemp
  · split
    · rfl
    · split
      · rfl
      · split <;> rfl

/-! ## Theorems -/

/-- **C2.** For every current time and last-accepted time, the gate accepts
exactly when the trigger is at least the 50 ms window after the last
accepted trigger (strictly earlier triggers are rejected), and the stored
timestamp becomes the trigger's time exactly when the gate accepts,
otherwise it is left unchanged. -/
theorem debounce_gate_spec (now last : Int) :
    ((button_pressed_gate now last).1 = true ↔ DEBOUNCE_TIME ≤ now - last)
    ∧ (button_pressed_gate now last).2 =
        (if (button_pressed_gate now last).1 then now else last) := by
  unfold button_pressed_gate ticks_diff
  by_cases h : now - last < DEBOUNCE_TIME <;> (simp [h]; try omega)

/-- **C7, counterexample.** A first trigger at tick 30 (a possible timestamp
within 50 ms of boot) is rejected by the gate with `last_button_time` at its
initial value 0, so the very first trigger is not accepted for every
possible first timestamp. -/
theorem first_trigger_not_always_accepted :
    (button_pressed_gate 30 initial_last_button_time).1 = false := by
  decide

/-- **C7, amended.** The first trigger after startup is accepted exactly
when its timestamp is at least the 50 ms window: `last_button_time` is
initialized to 0, not to a value older than any real timestamp minus the
window, so triggers in the first 50 ms of the tick clock are rejected. -/
theorem first_trigger_accepted_iff (t : Int) :
    (button_pressed_gate t initial_last_button_time).1 = true ↔ DEBOUNCE_TIME ≤ t := by
  unfold button_pressed_gate ticks_diff initial_last_button_time DEBOUNCE_TIME
  split
  · next h =>
    simp only [Bool.false_eq_true, false_iff]
    omega
  · next h =>
    simp only [true_iff]
    omega

/-- **C10.** Calling `set_light_state` with no state change specified
(power, brightness and color all absent) raises the
`"No state changes specified"` error and issues no network request: the
empty-body write is never sent. -/
theorem set_light_state_no_change (env : Env) (sel : String) :
    (set_light_state env sel none none none).1 = .error ⟨"No state changes specified"⟩
    ∧ (set_light_state env sel none none none).2 = [] :=
  ⟨rfl, rfl⟩

/-- **C4.** If the state query of a toggle fails with an error, the whole
toggle fails with that same error and no write request is issued on that
invocation. -/
theorem toggle_query_failure_no_write (env : Env) (sel : String) (e : LIFXAPIError)
    (ep : String) (body : StatePayload)
    (h : (get_light_state env sel).1 = .error e) :
    (toggle_light env sel).1 = .error e
    ∧ Request.put ep body ∉ (toggle_light env sel).2 := by
  have hreqs := get_light_state_reqs env sel
  have hg : get_light_state env sel = (.error e, [Request.get ("lights/" ++ sel)]) := by
    rcases hp : get_light_state env sel with ⟨a, b⟩
    rw [hp] at h hreqs
    simp only at h hreqs
    rw [h, hreqs]
  simp [toggle_light, hg]

/-- **C4, witness.** Against a service whose query times out, the toggle
fails with the query's error and the write request never appears in the
issued-request trace. -/
theorem toggle_query_failure_no_write_witness :
    (toggle_light envQueryFails "label:Kitchen").1 = .error ⟨"Request failed: timeout"⟩
    ∧ Request.put ("lights/" ++ "label:Kitchen" ++ "/state") ⟨some "on", none, none⟩
        ∉ (toggle_light envQueryFails "label:Kitchen").2 :=
  toggle_query_failure_no_write envQueryFails "label:Kitchen" ⟨"Request failed: timeout"⟩
    ("lights/" ++ "label:Kitchen" ++ "/state") ⟨some "on", none, none⟩ rfl

/-- **C3.** A write whose per-device results contain at least one entry with
status `"ok"` is treated as overall success (the response is returned),
even when other entries report failure; a write whose results contain zero
`"ok"` entries raises the partial-failure error. -/
theorem set_light_state_bulk_success (env : Env) (sel pw : String)
    (brightness : Option Rat) (color : Option String)
    (resp : PutResponse) (rs : List DeviceResult)
    (hput : env.put ("lights/" ++ sel ++ "/state") ⟨some pw, brightness, color⟩ = .ok resp)
    (hres : resp.results = some rs) :
    ((∃ r ∈ rs, r.status = some "ok") →
      (set_light_state env sel (some pw) brightness color).1 = .ok resp)
    ∧ ((∀ r ∈ rs, ¬ r.status = some "ok") →
      (set_light_state env sel (some pw) brightness color).1 =
        .error ⟨"No lights were successfully updated"⟩) := by
  constructor
  · rintro ⟨r, hr, hst⟩
    have hcond : ¬ ∀ x ∈ rs, ¬ x.status = some "ok" := fun hall => hall r hr hst
    simp [set_light_state, StatePayload.isEmpty, hput, hres, hcond]
  · intro hall
    simp [set_light_state, StatePayload.isEmpty, hput, hres]
    rw [if_pos hall]

/-- **C3, witness.** The spec's example: results `[ok, failed]` are overall
success, one lone `failed` raises the partial-failure error. -/
theorem set_light_state_bulk_success_witness :
    ((set_light_state envBulkOkFailed "label:Kitchen" (some "on") none none).1
        = .ok ⟨some [⟨some "ok"⟩, ⟨some "failed"⟩]⟩)
    ∧ ((set_light_state envBulkAllFailed "label:Kitchen" (some "on") none none).1
        = .error ⟨"No lights were successfully updated"⟩) :=
  ⟨(set_light_state_bulk_success envBulkOkFailed "label:Kitchen" "on" none none
      ⟨some [⟨some "ok"⟩, ⟨some "failed"⟩]⟩ [⟨some "ok"⟩, ⟨some "failed"⟩] rfl rfl).1
      (by decide),
    (set_light_state_bulk_success envBulkAllFailed "label:Kitchen" "on" none none
      ⟨some [⟨some "failed"⟩]⟩ [⟨some "failed"⟩] rfl rfl).2
      (by decide)⟩

/-- **C1.** When the state query returns a list whose first entry has power
`"on"`, the toggle issues a write with power `"off"` (and power `"on"` when
the first entry's power is `"off"`), and the returned result records the
queried power as the previous state, its negation as the new state, and
success `true`; the conclusion depends only on the first entry of the
returned list, which is the one deciding the direction. -/
theorem toggle_direction (env : Env) (sel : String) (l : Light) (ls : List Light)
    (r : ToggleResult)
    (hq : env.get ("lights/" ++ sel) = .ok (l :: ls))
    (hr : (toggle_light env sel).1 = .ok r) :
    Request.put ("lights/" ++ sel ++ "/state") ⟨some (new_power_of l.power), none, none⟩
        ∈ (toggle_light env sel).2
    ∧ r.old_power = l.power ∧ r.new_power = new_power_of l.power ∧ r.success = true
    ∧ (l.power = "on" → r.new_power = "off")
    ∧ (l.power = "off" → r.new_power = "on") := by
  have hg := get_light_state_ok env sel l ls hq
  rcases hset : set_light_state env sel (some (new_power_of l.power)) none none with ⟨s1, s2⟩
  have hs2 : s2 = [Request.put ("lights/" ++ sel ++ "/state")
      ⟨some (new_power_of l.power), none, none⟩] := by
    have hs := set_light_state_reqs env sel (new_power_of l.power)
    rw [hset] at hs
    exact hs
  cases s1 with
  | error e =>
      have hx : (toggle_light env sel).1 = .error e := by
        simp [toggle_light, hg, hset]
      rw [hx] at hr
      exact absurd hr (by simp)
  | ok resp =>
      have htl : toggle_light env sel =
          (.ok ⟨l.power, new_power_of l.power, resp, true⟩,
            [Request.get ("lights/" ++ sel)] ++ s2) := by
        simp [toggle_light, hg, hset]
      rw [htl] at hr
      simp only [Except.ok.injEq] at hr
      subst hr
      refine ⟨?_, rfl, rfl, rfl, ?_, ?_⟩
      · rw [htl, hs2]
        simp
      · intro hp
        show new_power_of l.power = "off"
        rw [hp]
        decide
      · intro hp
        show new_power_of l.power = "on"
        rw [hp]
        decide

/-- **C1, witness.** The spec scenario: the query reports power `"on"`, the
toggle writes `"off"` and returns previous `"on"`, new `"off"`, success
`true`. -/
theorem toggle_direction_witness :
    Request.put ("lights/" ++ "label:Kitchen" ++ "/state")
        ⟨some (new_power_of "on"), none, none⟩
      ∈ (toggle_light (serviceEnv "on") "label:Kitchen").2
    ∧ "on" = "on" ∧ "off" = new_power_of "on" ∧ (true : Bool) = true
    ∧ (("on" : String) = "on" → ("off" : String) = "off")
    ∧ (("on" : String) = "off" → ("off" : String) = "on") :=
  toggle_direction (serviceEnv "on") "label:Kitchen" ⟨"on"⟩ []
    ⟨"on", "off", ⟨some [⟨some "ok"⟩]⟩, true⟩ rfl rfl

/-- **C5, counterexample.** With the service reporting the third power value
`"unknown"` for the authoritative device, `toggle_light` does compute a new
power value (`"on"`) and does issue a write with it — the code does not
treat the third value as a protocol error. -/
theorem toggle_unknown_power_issues_write :
    (toggle_light envUnknownPower "label:Kitchen").1 =
      .ok ⟨"unknown", "on", ⟨some [⟨some "ok"⟩]⟩, true⟩
    ∧ Request.put ("lights/" ++ "label:Kitchen" ++ "/state") ⟨some "on", none, none⟩
        ∈ (toggle_light envUnknownPower "label:Kitchen").2 := by
  constructor
  · rfl
  · decide

/-- **C5, amended.** If the power value returned for the authoritative
device is anything other than `"on"` — including values that are neither
`"on"` nor `"off"` — the toggle treats it like `"off"`: it computes the new
power `"on"` and issues that write; no protocol error is raised. -/
theorem toggle_third_power_value (env : Env) (sel : String) (l : Light) (ls : List Light)
    (hq : env.get ("lights/" ++ sel) = .ok (l :: ls))
    (hp : l.power ≠ "on") :
    Request.put ("lights/" ++ sel ++ "/state") ⟨some "on", none, none⟩
      ∈ (toggle_light env sel).2 := by
  have hnp : new_power_of l.power = "on" := by
    simp [new_power_of, hp]
  have hg := get_light_state_ok env sel l ls hq
  rcases hset : set_light_state env sel (some (new_power_of l.power)) none none with ⟨s1, s2⟩
  have hs2 : s2 = [Request.put ("lights/" ++ sel ++ "/state")
      ⟨some (new_power_of l.power), none, none⟩] := by
    have hs := set_light_state_reqs env sel (new_power_of l.power)
    rw [hset] at hs
    exact hs
  have htr : (toggle_light env sel).2 = [Request.get ("lights/" ++ sel)] ++ s2 := by
    simp only [toggle_light, hg, hset]
    cases s1 <;> rfl
  rw [htr, hs2, hnp]
  simp

/-- **C5, amended witness.** The `"unknown"` power value leads to a write of
power `"on"`. -/
theorem toggle_third_power_value_witness :
    Request.put ("lights/" ++ "label:Kitchen" ++ "/state") ⟨some "on", none, none⟩
      ∈ (toggle_light envUnknownPower "label:Kitchen").2 :=
  toggle_third_power_value envUnknownPower "label:Kitchen" ⟨"unknown"⟩ [] rfl (by decide)

/-- Evaluation of one toggle against `serviceEnv w`: it reads `w`, writes
`new_power_of w` and succeeds. -/
theorem toggle_light_serviceEnv (w sel : String) :
    toggle_light (serviceEnv w) sel =
      (.ok ⟨w, new_power_of w, ⟨some [⟨some "ok"⟩]⟩, true⟩,
        [Request.get ("lights/" ++ sel),
         Request.put ("lights/" ++ sel ++ "/state") ⟨some (new_power_of w), none, none⟩]) := by
  simp [toggle_light, get_light_state, set_light_state, serviceEnv, StatePayload.isEmpty]

/-- `new_power_of` is an involution on the two power states. -/
theorem new_power_of_involutive (w : String) (hw : w = "on" ∨ w = "off") :
    new_power_of (new_power_of w) = w := by
  rcases hw with h | h <;> (subst h; decide)

/-- **C6.** Toggle is an involution: for every selector, two sequential
successful toggles with no external interference — the second one reading
the power the first one wrote — leave the light's power (the power written
by the second toggle) equal to the power observed before the first toggle. -/
theorem toggle_involution (sel w : String) (r1 r2 : ToggleResult)
    (hw : w = "on" ∨ w = "off")
    (h1 : (toggle_light (serviceEnv w) sel).1 = .ok r1)
    (h2 : (toggle_light (serviceEnv r1.new_power) sel).1 = .ok r2) :
    r1.success = true ∧ r2.success = true ∧ r1.old_power = w ∧ r2.new_power = w := by
  rw [toggle_light_serviceEnv] at h1
  rw [toggle_light_serviceEnv] at h2
  simp only [Except.ok.injEq] at h1 h2
  subst h1
  subst h2
  exact ⟨rfl, rfl, rfl, new_power_of_involutive w hw⟩

/-- **C6, witness.** Starting from power `"on"`: the first toggle writes
`"off"`, the second reads `"off"` and writes `"on"` — the original power. -/
theorem toggle_involution_witness :
    (true : Bool) = true ∧ (true : Bool) = true
    ∧ ("on" : String) = "on" ∧ ("on" : String) = "on" :=
  toggle_involution "label:Kitchen" "on"
    ⟨"on", "off", ⟨some [⟨some "ok"⟩]⟩, true⟩
    ⟨"off", "on", ⟨some [⟨some "ok"⟩]⟩, true⟩
    (Or.inl rfl) rfl rfl

/-- **C8.** Construction raises the invalid-token configuration error
exactly when the effective bearer token's length differs from 64, and
succeeds — returning the controller holding that token — exactly when the
length is 64. -/
theorem init_token_validation (api_token : Option String) (secrets_token : String)
    (timeout : Rat) :
    (lifx_controller_init api_token secrets_token timeout
        = .error ⟨"Invalid LIFX API token format"⟩
      ↔ (effective_api_token api_token secrets_token).length ≠ 64)
    ∧ (lifx_controller_init api_token secrets_token timeout
        = .ok ⟨effective_api_token api_token secrets_token, timeout / 1000⟩
      ↔ (effective_api_token api_token secrets_token).length = 64) := by
  simp only [lifx_controller_init]
  by_cases h : effective_api_token api_token secrets_token = "" ∨
      (effective_api_token api_token secrets_token).length ≠ 64
  · have hlen : (effective_api_token api_token secrets_token).length ≠ 64 := by
      rcases h with h | h
      · rw [h]
        decide
      · exact h
    simp [h, hlen]
  · have hcond := h
    push_neg at h
    simp [hcond, h.1, h.2]

/-- **C9.** `_make_request` never leaks the response handle: on every run —
every failure path included — the handle is closed exactly when one was
opened.  When the HTTP call itself raises before a response object exists,
no handle is created, so nothing can leak on that path either. -/
theorem make_request_releases_handle {α : Type} (method : String)
    (outcome : HttpOutcome α) :
    (make_request method outcome).closed = (make_request method outcome).opened := by
  unfold make_request
  split
  · split
    · rfl
    · split
      · split <;> rfl
      · rfl
  · rfl

end MoodLighting
